import Mathlib

set_option autoImplicit false

/-!
Verification of the agent-runtime core of the `ai-agents-from-scratch`
repository: the tool schema generators (`src/tool.py`, `tool_helpers.py`),
the conversation memories, the tool registries and the agent loops
(`src/agent.py`, `agents.py`), and the advanced-memory lesson
(`10-advanced-memory/example.py`).  Python functions are embedded as Lean
functions; mutable object state is passed explicitly; Python exceptions are
`Except` / an explicit `Outcome`; the model provider is an oracle function
from the conversation history to a response.
-/

namespace AgentsFromScratch

/-- Python runtime type of a parameter annotation (`str`, `int`, ...). -/
inductive PyType where
  | str
  | int
  | float
  | bool
  | list
  | dict
  | other (name : String)
deriving DecidableEq

/-- One parameter of a Python function signature, as seen by
`inspect.signature` and `typing.get_type_hints`: its name, its type hint
(`none` when unannotated) and whether it carries a default value. -/
structure Param where
  name : String
  typeHint : Option PyType
  hasDefault : Bool
deriving DecidableEq

/-- Python exceptions that the embedded code can raise. -/
inductive PyErr where
  | runtimeError (msg : String)
  | attributeError (attr : String)
  | typeError (msg : String)
  | valueError (msg : String)
  | exc (msg : String)
deriving DecidableEq

/-- Python `str(e)` on an exception value. -/
def pyErrStr : PyErr → String
  | .runtimeError m => m
  | .attributeError a => "object has no attribute " ++ a
  | .typeError m => m
  | .valueError m => m
  | .exc m => m

/-- Lookup in a Python `dict` modelled as an insertion-ordered
association list: `d.get(k)` / `d[k]`. -/
def dget {α : Type} : List (String × α) → String → Option α
  | [], _ => none
  | (k₀, v) :: rest, k => if k₀ = k then some v else dget rest k

/-- Python `d[k] = v` on an insertion-ordered `dict`: replaces the value in
place when the key exists, appends otherwise. -/
def dictSet {α : Type} : List (String × α) → String → α → List (String × α)
  | [], k, v => [(k, v)]
  | (k₀, v₀) :: rest, k, v =>
    if k₀ = k then (k, v) :: rest else (k₀, v₀) :: dictSet rest k v

/-- A single-quote character, used in Python error message text. -/
def squote : String := String.mk [Char.ofNat 39]

/-- Escaping applied by `json.dumps` to string values (quote and
backslash; the embedded messages contain no control characters). -/
def json_escape (s : String) : String :=
  String.mk ((s.data).foldr
    (fun c acc =>
      if c = Char.ofNat 92 then Char.ofNat 92 :: Char.ofNat 92 :: acc
      else if c = Char.ofNat 34 then Char.ofNat 92 :: Char.ofNat 34 :: acc
      else c :: acc) [])

/-- Python `json.dumps` of a one-key object of strings, for example
`json.dumps(\x7b"error": msg\x7d)`. -/
def json_dumps_single (key val : String) : String :=
  "\x7b\"" ++ json_escape key ++ "\": \"" ++ json_escape val ++ "\"\x7d"

/-- Recognizes the error payloads produced by the tool executors:
a JSON object whose single key is `"error"`. -/
def isErrorPayload (s : String) : Bool :=
  List.isPrefixOf ("\x7b\"error\": \"".data) s.data

/-- Keyword arguments of a Python call, as parsed from a JSON payload. -/
def KwArgs : Type := List (String × String)

/-- A registered tool callable: takes keyword arguments and either returns
a string or raises. -/
def ToolFn : Type := KwArgs → Except PyErr String

/-- Result of running an exception-catching public entry point:
a returned value or a propagated Python exception. -/
inductive Outcome where
  | ok (text : String)
  | raise (e : PyErr)
deriving DecidableEq

/-- Result of one `chat()` call: the memory after the call, the outcome,
and how many completion requests were issued. -/
structure RunResult (τ : Type) where
  memory : List τ
  outcome : Outcome
  requests : Nat

namespace SrcTool
/-! Embedding of `src/tool.py`. -/

/-- One entry of the `properties` dict built by `Tool.from_function`:
the dict literal `\x7b"type": "string"\x7d` (no other key is emitted). -/
structure SchemaProp where
  type : String
deriving DecidableEq

/-- The `parameters` dict of the `Tool` dataclass:
`\x7b"type": "object", "properties": ..., "required": ...\x7d`. -/
structure ToolParams where
  type : String
  properties : List (String × SchemaProp)
  required : List String
deriving DecidableEq

/-- The `Tool` dataclass of `src/tool.py`. -/
structure Tool where
  name : String
  description : String
  parameters : ToolParams
deriving DecidableEq

/-- `Tool.from_function`: every parameter is given type `"string"`;
a parameter is appended to `required` exactly when its default is
`inspect.Parameter.empty`.  `name` is `func.__name__` and `doc` is
`inspect.getdoc(func) or ""`. -/
def from_function (name doc : String) (params : List Param) : Tool :=
  { name := name
    description := doc
    parameters :=
      { type := "object"
        properties := params.map (fun p => (p.name, ⟨"string"⟩))
        required := (params.filter (fun p => !p.hasDefault)).map Param.name } }

/-- Return value of `Tool.to_openai_format`. -/
structure OpenAIFormat where
  type : String
  name : String
  description : String
  parameters : ToolParams
deriving DecidableEq

/-- `Tool.to_openai_format`. -/
def to_openai_format (t : Tool) : OpenAIFormat :=
  { type := "function"
    name := t.name
    description := t.description
    parameters := t.parameters }

/-- The dict-returning methods the `Tool` dataclass defines:
`to_openai_format` is the only one (there is no `to_dict`). -/
def method_lookup (attr : String) : Option (Tool → OpenAIFormat) :=
  if attr = "to_openai_format" then some to_openai_format else none

/-- Python attribute call `t.<attr>()` on a `Tool` instance: dispatches on
the methods the class defines, raising `AttributeError` otherwise. -/
def call_method (t : Tool) (attr : String) : Except PyErr OpenAIFormat :=
  match method_lookup attr with
  | some f => .ok (f t)
  | none => .error (.attributeError attr)

end SrcTool

namespace Helpers
/-! Embedding of `tool_helpers.py`, function `tool_schema`. -/

/-- One entry of the `properties` dict built by `tool_schema`:
`\x7b"type": ..., "description": ...\x7d`. -/
structure HProp where
  type : String
  description : String
deriving DecidableEq

/-- The schema dict returned by `tool_schema` (flattened: the `function`
sub-object carries name, description and the parameters object). -/
structure FnSchema where
  name : String
  description : String
  properties : List (String × HProp)
  required : List String
deriving DecidableEq

/-- The `type_mapping` dict of `tool_schema`. -/
def type_mapping : List (PyType × String) :=
  [(.str, "string"), (.int, "integer"), (.float, "number"),
   (.bool, "boolean"), (.list, "array"), (.dict, "object")]

/-- `type_hints.get(param_name, str)` followed by
`type_mapping.get(param_type, "string")`. -/
def json_type_of (hint : Option PyType) : String :=
  let pt := hint.getD PyType.str
  (((type_mapping.find? (fun q => q.1 = pt)).map Prod.snd)).getD "string"

/-- `param_descriptions.get(name, f"The \x7bname\x7d parameter")`. -/
def descGet (param_descriptions : List (String × String)) (n : String) : String :=
  match dget param_descriptions n with
  | some d => d
  | none => "The " ++ n ++ " parameter"

/-- `tool_schema(func)`: parameters named `self` are skipped; each kept
parameter gets the JSON type of its hint (default `"string"`) and a
description; it is `required` exactly when it has no default.  The
docstring parsing that produces `description` and `param_descriptions`
is pure string munging and is taken as input here. -/
def tool_schema (fname description : String)
    (param_descriptions : List (String × String)) (params : List Param) :
    FnSchema :=
  let ps := params.filter (fun p => p.name != "self")
  { name := fname
    description := description
    properties :=
      ps.map (fun p => (p.name, ⟨json_type_of p.typeHint, descGet param_descriptions p.name⟩))
    required := (ps.filter (fun p => !p.hasDefault)).map Param.name }

end Helpers

namespace SrcAgent
/-! Embedding of `src/agent.py`: `ConversationMemory`, `Agent.register_tool`,
`Agent._execute_tool`, `Agent._run_agent_loop` and `Agent.chat`. -/

/-- One entry of `message.tool_calls` of the chat-completions response. -/
structure ToolCall where
  id : String
  name : String
  arguments : String
deriving DecidableEq

/-- The assistant message of one completion response: its text content
(possibly `None`) and its requested tool calls (`[]` stands for absent). -/
structure ModelMsg where
  content : Option String
  tool_calls : List ToolCall
deriving DecidableEq

/-- One message of `ConversationMemory.messages`. -/
inductive Msg where
  | system (content : String)
  | user (content : String)
  | assistant (m : ModelMsg)
  | tool (tool_call_id : String) (content : String)
deriving DecidableEq

/-- The `"role"` key of a message dict. -/
def Msg.role : Msg → String
  | .system _ => "system"
  | .user _ => "user"
  | .assistant _ => "assistant"
  | .tool _ _ => "tool"

/-- `ConversationMemory.clear`: keeps exactly the messages whose role is
`"system"`. -/
def clear (messages : List Msg) : List Msg :=
  messages.filter (fun m => Msg.role m == "system")

/-- `Agent._execute_tool`: parse the JSON arguments, look the tool up,
call it; every failure is turned into a `json.dumps(\x7b"error": ...\x7d)`
string.  The function returns a `String` — structurally it cannot raise.
`parse` is the outcome of `json.loads` on the raw payload. -/
def execute_tool (parse : String → Except String KwArgs)
    (tools : List (String × ToolFn)) (tc : ToolCall) : String :=
  match parse tc.arguments with
  | .error e => json_dumps_single "error" ("Failed to parse tool arguments: " ++ e)
  | .ok args =>
    match dget tools tc.name with
    | none =>
      json_dumps_single "error"
        ("Tool " ++ squote ++ tc.name ++ squote ++ " not found in registered tools")
    | some f =>
      match f args with
      | .ok v => json_dumps_single "result" v
      | .error (.typeError m) =>
        json_dumps_single "error"
          ("Invalid arguments for tool " ++ squote ++ tc.name ++ squote ++ ": " ++ m)
      | .error e => json_dumps_single "error" ("Tool execution failed: " ++ pyErrStr e)

/-- The `RuntimeError` message raised on exhaustion. -/
def exhaust_msg (max_iterations : Nat) : String :=
  "Agent reached max iterations (" ++ toString max_iterations ++
    ") without providing final answer"

/-- `Agent._run_agent_loop`, with the completion boundary as an oracle
`model` from the history to a response (or a transport error, which the
loop does not catch).  The fuel argument is `max_iterations - iteration`;
`requests` counts issued completion requests. -/
def run_agent_loop (parse : String → Except String KwArgs)
    (model : List Msg → Except PyErr ModelMsg)
    (tools : List (String × ToolFn)) (max_iterations : Nat) :
    Nat → List Msg → RunResult Msg
  | 0, mem => ⟨mem, .raise (.runtimeError (exhaust_msg max_iterations)), 0⟩
  | fuel + 1, mem =>
    match model mem with
    | .error e => ⟨mem, .raise e, 1⟩
    | .ok m =>
      let mem1 := mem ++ [Msg.assistant m]
      if (m.tool_calls).isEmpty then
        ⟨mem1, .ok ((m.content).getD ""), 1⟩
      else
        let mem2 := mem1 ++
          (m.tool_calls).map (fun tc => Msg.tool tc.id (execute_tool parse tools tc))
        let r := run_agent_loop parse model tools max_iterations fuel mem2
        ⟨r.memory, r.outcome, r.requests + 1⟩

/-- `Agent.chat`: appends the user message, then runs the agent loop. -/
def chat (parse : String → Except String KwArgs)
    (model : List Msg → Except PyErr ModelMsg)
    (tools : List (String × ToolFn)) (max_iterations : Nat)
    (mem : List Msg) (message : String) : RunResult Msg :=
  run_agent_loop parse model tools max_iterations max_iterations
    (mem ++ [Msg.user message])

/-- A Python function object passed to `register_tool`: its `__name__`,
its docstring, its signature and its body. -/
structure PyFunc where
  name : String
  doc : String
  params : List Param
  fn : ToolFn

/-- The tool-related state of an `Agent`:
`self.tools` and `self.tool_schemas`. -/
structure AgentState where
  tools : List (String × PyFunc)
  tool_schemas : List SrcTool.OpenAIFormat

/-- `Agent.register_tool`: builds the `Tool`, stores the callable under its
name, then calls `tool.to_dict()` (a method the `Tool` dataclass does not
define) to append the schema.  The state reached when the exception is
raised is returned next to the outcome, since the mutation of `self.tools`
has already happened. -/
def register_tool (st : AgentState) (func : PyFunc) :
    AgentState × Except PyErr Unit :=
  let t := SrcTool.from_function func.name func.doc func.params
  let st1 := { st with tools := dictSet st.tools t.name func }
  match SrcTool.call_method t "to_dict" with
  | .ok d => ({ st1 with tool_schemas := st1.tool_schemas ++ [d] }, .ok ())
  | .error e => (st1, .error e)

end SrcAgent

namespace Agents
/-! Embedding of `agents.py`: `ConversationMemory`, `Agent.register_tool`,
`Agent._execute_tool`, `Agent._has_function_calls`,
`Agent._extract_text_response` and `Agent.chat` (Responses API). -/

/-- One entry of a response output message's `content` list. -/
inductive ContentPart where
  | output_text (text : String)
  | other_part (type : String)
deriving DecidableEq

/-- One item of `response.output`. -/
inductive OutItem where
  | message (content : List ContentPart)
  | function_call (call_id : String) (name : String) (arguments : String)
  | other_item (type : String)
deriving DecidableEq

/-- `item.type == "function_call"`. -/
def OutItem.isFunctionCall : OutItem → Bool
  | .function_call _ _ _ => true
  | _ => false

/-- `Agent._has_function_calls`. -/
def has_function_calls (output : List OutItem) : Bool :=
  output.any OutItem.isFunctionCall

/-- Inner loop of `Agent._extract_text_response` over a message's content. -/
def first_output_text : List ContentPart → Option String
  | [] => none
  | .output_text t :: _ => some t
  | .other_part _ :: rest => first_output_text rest

/-- `Agent._extract_text_response`: the first `output_text` of the first
message item that has one; `"No response generated"` otherwise. -/
def extract_text_response : List OutItem → String
  | [] => "No response generated"
  | .message parts :: rest =>
    match first_output_text parts with
    | some t => t
    | none => extract_text_response rest
  | _ :: rest => extract_text_response rest

/-- One item of `ConversationMemory.items`: a system or user message dict,
an item of a response output array, or a `function_call_output` dict. -/
inductive AItem where
  | system (content : String)
  | user (content : String)
  | out (item : OutItem)
  | function_call_output (call_id : String) (output : String)
deriving DecidableEq

/-- `item.get("role")`: present on system, user and response message items
(the latter carry role `"assistant"`), absent elsewhere. -/
def AItem.role : AItem → Option String
  | .system _ => some "system"
  | .user _ => some "user"
  | .out (.message _) => some "assistant"
  | .out _ => none
  | .function_call_output _ _ => none

/-- `ConversationMemory.clear`: keeps exactly the items whose `"role"` is
`"system"`. -/
def clear (items : List AItem) : List AItem :=
  items.filter (fun it => AItem.role it == some "system")

/-- `Agent._execute_tool`: look the tool up first, then parse the
arguments and call it inside one `try`; every exception becomes a
`json.dumps(\x7b"error": ...\x7d)` string.  Returns a `String` — it cannot
raise. -/
def execute_tool (parse : String → Except String KwArgs)
    (tools : List (String × ToolFn)) (tool_name arguments : String) : String :=
  match dget tools tool_name with
  | none =>
    json_dumps_single "error" ("Tool " ++ squote ++ tool_name ++ squote ++ " not found")
  | some f =>
    match parse arguments with
    | .error e => json_dumps_single "error" e
    | .ok args =>
      match f args with
      | .ok v => json_dumps_single "result" v
      | .error e => json_dumps_single "error" (pyErrStr e)

/-- The sentinel string returned on exhaustion. -/
def sentinel : String := "Max iterations reached without final answer"

/-- The body of `Agent.chat` after the user message is appended: a
`for`-loop over `range(max_iterations)`.  The completion request is inside
a `try` whose handler returns `"Error calling API: ..."` as an ordinary
string.  Output items are appended to memory; tool calls are executed in
output order, each result appended immediately. -/
def run_chat_loop (parse : String → Except String KwArgs)
    (model : List AItem → Except PyErr (List OutItem))
    (tools : List (String × ToolFn)) :
    Nat → List AItem → RunResult AItem
  | 0, mem => ⟨mem, .ok sentinel, 0⟩
  | fuel + 1, mem =>
    match model mem with
    | .error e => ⟨mem, .ok ("Error calling API: " ++ pyErrStr e), 1⟩
    | .ok output =>
      if has_function_calls output = false then
        ⟨mem ++ output.map AItem.out, .ok (extract_text_response output), 1⟩
      else
        let mem1 := mem ++ output.map AItem.out
        let mem2 := output.foldl
          (fun acc it =>
            match it with
            | OutItem.function_call call_id nm args =>
              acc ++ [AItem.function_call_output call_id (execute_tool parse tools nm args)]
            | _ => acc) mem1
        let r := run_chat_loop parse model tools fuel mem2
        ⟨r.memory, r.outcome, r.requests + 1⟩

/-- `Agent.chat`: append the user message, then loop. -/
def chat (parse : String → Except String KwArgs)
    (model : List AItem → Except PyErr (List OutItem))
    (tools : List (String × ToolFn)) (max_iterations : Nat)
    (mem : List AItem) (message : String) : RunResult AItem :=
  run_chat_loop parse model tools max_iterations (mem ++ [AItem.user message])

/-- A function handed to `agents.Agent.register_tool`: its `__name__`,
whether the `@tool` decorator attached a `tool` attribute, and its body. -/
structure DecoratedFn where
  name : String
  has_tool_attr : Bool
  fn : ToolFn

/-- `Agent.register_tool`: raises `ValueError` when the function lacks the
`tool` attribute, otherwise stores it under `func.__name__` — overwriting
any existing entry. -/
def register_tool (tools : List (String × DecoratedFn)) (func : DecoratedFn) :
    Except PyErr (List (String × DecoratedFn)) :=
  if func.has_tool_attr = false then
    .error (.valueError ("Function " ++ func.name ++ " must be decorated with @tool"))
  else
    .ok (dictSet tools func.name func)

end Agents

namespace AdvMemory
/-! Embedding of `10-advanced-memory/example.py`: `AgentWithMemory`'s token
counting, history trimming and conversation persistence. -/

/-- The `"content"` value of an item when it is a string (response output
message items carry a content list, not a string). -/
def content_str : Agents.AItem → Option String
  | .system c => some c
  | .user c => some c
  | _ => none

/-- The `"output"` value of an item when it is a string. -/
def output_str : Agents.AItem → Option String
  | .function_call_output _ o => some o
  | _ => none

/-- Per-message cost in `AgentWithMemory._count_tokens`: the tokenizer
length of the string content or output, plus 4 overhead.  `enc` stands for
`len(self.tokenizer.encode(...))`. -/
def msg_tokens (enc : String → Nat) (it : Agents.AItem) : Nat :=
  (match content_str it with
   | some s => enc s
   | none =>
     match output_str it with
     | some s => enc s
     | none => 0) + 4

/-- `AgentWithMemory._count_tokens` over a message list. -/
def count_tokens (enc : String → Nat) (items : List Agents.AItem) : Nat :=
  items.foldl (fun acc it => acc + msg_tokens enc it) 0

/-- The `while` loop of `_trim_history`: pop the oldest non-system message
while the total is over the limit and non-system messages remain. -/
def trim_while (enc : String → Nat) (limit : Nat) (sys : List Agents.AItem) :
    List Agents.AItem → List Agents.AItem
  | [] => []
  | it :: rest =>
    if count_tokens enc (sys ++ it :: rest) > limit then trim_while enc limit sys rest
    else it :: rest

/-- The attributes that `ConversationMemory` of `src/agent.py` — the class
`AgentWithMemory` actually inherits through `from src.agent import Agent` —
defines on its instances: the `messages` list and four methods.  There is
no `get_items` and no `items`. -/
def conversation_memory_attrs : List String :=
  ["messages", "add_message", "add_tool_result", "get_history", "clear"]

/-- Python `hasattr` on such a `ConversationMemory` instance. -/
def memory_has_attr (attr : String) : Bool :=
  conversation_memory_attrs.contains attr

/-- A `ConversationMemory` object of `src/agent.py` at runtime: its
`messages` list, plus an `items` attribute that exists only after some
caller setattr-ed it (as `load_conversation` does). -/
structure MemoryObj where
  messages : List SrcAgent.Msg
  extra_items : Option (List Agents.AItem)

/-- `ConversationMemory.get_history`: returns `self.messages`. -/
def get_history (m : MemoryObj) : List SrcAgent.Msg := m.messages

/-- `AgentWithMemory.save_conversation`: serializes
`self.memory.get_items()` — an attribute access that must be resolved on
the `ConversationMemory` class before anything is written. -/
def save_conversation (m : MemoryObj) : Except PyErr (List Agents.AItem) :=
  if memory_has_attr "get_items" then .ok ((m.extra_items).getD [])
  else .error (.attributeError "get_items")

/-- `AgentWithMemory.load_conversation`: assigns `self.memory.items`,
creating a fresh attribute on the instance; `messages` is untouched. -/
def load_conversation (m : MemoryObj) (data : List Agents.AItem) : MemoryObj :=
  { m with extra_items := some data }

/-- `AgentWithMemory._trim_history`.  Its first statement
`current_tokens = self._count_tokens()` evaluates
`self.memory.get_items()`; that attribute access is resolved against the
attributes the inherited `ConversationMemory` actually defines, and fails,
so as wired the method raises `AttributeError` before removing anything.
The trimming body of lines 85-99 — return early when under the limit,
split off the system messages, pop the oldest others while over the
limit, rebuild as `system_messages + other_messages` into
`self.memory.items` — sits in the branch that would run had `get_items`
existed. -/
def trim_history (enc : String → Nat) (limit : Nat) (m : MemoryObj) :
    Except PyErr MemoryObj :=
  if memory_has_attr "get_items" then
    let items := (m.extra_items).getD []
    if count_tokens enc items ≤ limit then .ok m
    else
      let sys := items.filter (fun it => Agents.AItem.role it == some "system")
      let others := items.filter (fun it => !(Agents.AItem.role it == some "system"))
      .ok { m with extra_items := some (sys ++ trim_while enc limit sys others) }
  else .error (.attributeError "get_items")

end AdvMemory

/-! Spec-side definitions, written from the specification's words and used
to compare against the embedded source functions. -/

/-- Spec-side parameter-type table of section 4.1: str to string, int to
integer, float to number, bool to boolean, list to array, dict to object;
string when unannotated; and string for any other annotation (the
degrade-to-string policy the code applies). -/
def claimed_json_type : Option PyType → String
  | some .str => "string"
  | some .int => "integer"
  | some .float => "number"
  | some .bool => "boolean"
  | some .list => "array"
  | some .dict => "object"
  | none => "string"
  | some (.other _) => "string"

/-- Spec-side reading of `reset()` for the chat-completions memory: the
subsequence of exactly the system-role turns, in original order. -/
def system_turns_src : List SrcAgent.Msg → List SrcAgent.Msg
  | [] => []
  | m :: rest =>
    if SrcAgent.Msg.role m = "system" then m :: system_turns_src rest
    else system_turns_src rest

/-- Spec-side reading of `reset()` for the Responses-API memory: the
subsequence of exactly the system-role items, in original order. -/
def system_turns_agents : List Agents.AItem → List Agents.AItem
  | [] => []
  | it :: rest =>
    if Agents.AItem.role it = some "system" then it :: system_turns_agents rest
    else system_turns_agents rest

/-! Helper lemmas shared by several claims. -/

lemma str_data_append (s t : String) : (s ++ t).data = s.data ++ t.data := by
  cases s
  cases t
  rfl

lemma isPrefixOf_append_self {α : Type} [BEq α] [LawfulBEq α] (l t : List α) :
    l.isPrefixOf (l ++ t) = true := by
  induction l with
  | nil => simp [List.isPrefixOf]
  | cons a as ih => simp [List.isPrefixOf, ih]

lemma isErrorPayload_json_dumps (m : String) :
    isErrorPayload (json_dumps_single "error" m) = true := by
  unfold isErrorPayload json_dumps_single
  rw [show json_escape "error" = "error" from rfl]
  simp only [str_data_append, List.append_assoc]
  exact isPrefixOf_append_self _ _

lemma dget_dictSet_self {α : Type} (d : List (String × α)) (k : String) (v : α) :
    dget (dictSet d k v) k = some v := by
  induction d with
  | nil => simp [dictSet, dget]
  | cons hd tl ih =>
    obtain ⟨k₀, v₀⟩ := hd
    by_cases h : k₀ = k <;> simp [dictSet, dget, h, ih]

lemma dget_map_of_mem {α : Type} (g : Param → α) :
    ∀ (l : List Param) (p : Param), p ∈ l →
      (∀ q ∈ l, q.name = p.name → g q = g p) →
      dget (l.map (fun q => (q.name, g q))) p.name = some (g p) := by
  intro l
  induction l with
  | nil => intro p hp _; cases hp
  | cons q tl ih =>
    intro p hp hinj
    by_cases h : q.name = p.name
    · simp [dget, h, hinj q (List.mem_cons_self q tl) h]
    · have hp' : p ∈ tl := by
        rcases List.mem_cons.1 hp with rfl | htl
        · exact absurd rfl h
        · exact htl
      simp only [List.map_cons, dget, h, if_false]
      exact ih p hp' (fun r hr he => hinj r (List.mem_cons_of_mem q hr) he)

lemma json_type_of_eq_claimed (h : Option PyType) :
    Helpers.json_type_of h = claimed_json_type h := by
  cases h with
  | none => rfl
  | some t => cases t <;> rfl

/-- A tool that raises on every call makes `Agent._execute_tool` of
`src/agent.py` produce an error payload. -/
lemma src_execute_tool_error_of_raises
    (parse : String → Except String KwArgs) (tools : List (String × ToolFn))
    (tc : SrcAgent.ToolCall) (f : ToolFn)
    (hf : dget tools tc.name = some f)
    (hraise : ∀ args, ∃ er, f args = Except.error er) :
    isErrorPayload (SrcAgent.execute_tool parse tools tc) = true := by
  unfold SrcAgent.execute_tool
  cases hp : parse tc.arguments with
  | error e => exact isErrorPayload_json_dumps _
  | ok args =>
    obtain ⟨er, her⟩ := hraise args
    simp only [hf, her]
    cases er <;> exact isErrorPayload_json_dumps _

/-- A tool that raises on every call makes `Agent._execute_tool` of
`agents.py` produce an error payload. -/
lemma agents_execute_tool_error_of_raises
    (parse : String → Except String KwArgs) (tools : List (String × ToolFn))
    (nm args : String) (f : ToolFn)
    (hf : dget tools nm = some f)
    (hraise : ∀ kw, ∃ er, f kw = Except.error er) :
    isErrorPayload (Agents.execute_tool parse tools nm args) = true := by
  unfold Agents.execute_tool
  cases hp : parse args with
  | error e => simp only [hf, hp]; exact isErrorPayload_json_dumps _
  | ok kw =>
    obtain ⟨er, her⟩ := hraise kw
    simp only [hf, her]
    exact isErrorPayload_json_dumps _

/-- Under a model that always requests tool calls, the loop of
`src/agent.py` spends all its fuel — one completion request per unit —
and raises the max-iterations `RuntimeError`. -/
lemma src_loop_always_tool
    (parse : String → Except String KwArgs)
    (model : List SrcAgent.Msg → Except PyErr SrcAgent.ModelMsg)
    (tools : List (String × ToolFn)) (maxIt : Nat)
    (h : ∀ mem, ∃ m, model mem = Except.ok m
        ∧ (SrcAgent.ModelMsg.tool_calls m).isEmpty = false) :
    ∀ fuel mem,
      (SrcAgent.run_agent_loop parse model tools maxIt fuel mem).requests = fuel
      ∧ (SrcAgent.run_agent_loop parse model tools maxIt fuel mem).outcome
          = Outcome.raise (PyErr.runtimeError (SrcAgent.exhaust_msg maxIt)) := by
  intro fuel
  induction fuel with
  | zero => intro mem; exact ⟨rfl, rfl⟩
  | succ n ih =>
    intro mem
    obtain ⟨m, hm, hne⟩ := h mem
    constructor <;> simp [SrcAgent.run_agent_loop, hm, hne, (ih _).1, (ih _).2]

/-- Under a model that always requests function calls, the loop of
`agents.py` spends all its fuel — one completion request per unit — and
returns the sentinel string. -/
lemma agents_loop_always_tool
    (parse : String → Except String KwArgs)
    (model : List Agents.AItem → Except PyErr (List Agents.OutItem))
    (tools : List (String × ToolFn))
    (h : ∀ mem, ∃ out, model mem = Except.ok out
        ∧ Agents.has_function_calls out = true) :
    ∀ fuel mem,
      (Agents.run_chat_loop parse model tools fuel mem).requests = fuel
      ∧ (Agents.run_chat_loop parse model tools fuel mem).outcome
          = Outcome.ok Agents.sentinel := by
  intro fuel
  induction fuel with
  | zero => intro mem; exact ⟨rfl, rfl⟩
  | succ n ih =>
    intro mem
    obtain ⟨out, hm, hfc⟩ := h mem
    constructor <;> simp [Agents.run_chat_loop, hm, hfc, (ih _).1, (ih _).2]

/-! Theorems settling the claims. -/

/-- C10 (counterexample): on a concrete callable, `Agent.register_tool` of
`src/agent.py` raises `AttributeError` for the missing `Tool.to_dict`
method, but it does not register nothing: `self.tools` has already been
mutated when the exception is raised (the claim asserts nothing is
registered). -/
theorem C10_counterexample :
    (SrcAgent.register_tool ⟨[], []⟩
        ⟨"get_weather", "Get the current weather for a city.",
         [⟨"city", some PyType.str, false⟩], fun _ => Except.ok "sunny"⟩).2
      = Except.error (PyErr.attributeError "to_dict")
    ∧ ((SrcAgent.register_tool ⟨[], []⟩
        ⟨"get_weather", "Get the current weather for a city.",
         [⟨"city", some PyType.str, false⟩], fun _ => Except.ok "sunny"⟩).1).tools.length
      = 1 := by
  exact ⟨rfl, rfl⟩

/-- C10 (amended): for every callable, `Agent.register_tool` of
`src/agent.py` raises `AttributeError` on the `tool.to_dict()` call, since
the `Tool` dataclass defines only `to_openai_format`; `tool_schemas` is
never extended — so no tool is ever fully registered or exposed to the
model — but the callable has already been inserted into `self.tools` when
the exception fires. -/
theorem C10_register_tool_attribute_error
    (st : SrcAgent.AgentState) (f : SrcAgent.PyFunc) :
    (SrcAgent.register_tool st f).2 = Except.error (PyErr.attributeError "to_dict")
    ∧ ((SrcAgent.register_tool st f).1).tool_schemas = st.tool_schemas
    ∧ ((SrcAgent.register_tool st f).1).tools = dictSet st.tools f.name f := by
  refine ⟨rfl, rfl, rfl⟩

/-- C8 (code defect): `AgentWithMemory.save_conversation` serializes
`self.memory.get_items()`, but the `ConversationMemory` class it inherits
from `src/agent.py` defines no `get_items` attribute, so serialization
raises `AttributeError` on every memory state; and `load_conversation`
assigns `self.memory.items`, an attribute `get_history` never reads, so
even the load path cannot restore the history.  The spec's round-trip
property cannot hold on this code. -/
theorem C8_persistence_broken :
    (∀ m : AdvMemory.MemoryObj,
        AdvMemory.save_conversation m
          = Except.error (PyErr.attributeError "get_items"))
    ∧ (∀ (m : AdvMemory.MemoryObj) (data : List Agents.AItem),
        AdvMemory.get_history (AdvMemory.load_conversation m data)
          = AdvMemory.get_history m) := by
  refine ⟨fun m => ?_, fun m data => rfl⟩
  have h : AdvMemory.memory_has_attr "get_items" = false := by decide
  simp [AdvMemory.save_conversation, h]

/-- C3 (counterexample): registering a second decorated callable named
`"w"` over an existing `"w"` entry in `agents.py` succeeds (no
duplicate-tool error exists anywhere in the code) and silently replaces
the stored binding, contradicting the claim that registration fails and
leaves the registry unchanged. -/
theorem C3_counterexample :
    Agents.register_tool
        [("w", ⟨"w", true, fun _ => Except.ok "first"⟩)]
        ⟨"w", true, fun _ => Except.ok "second"⟩
      = Except.ok [("w", ⟨"w", true, fun _ => Except.ok "second"⟩)]
    ∧ (Except.ok "second" : Except PyErr String) ≠ Except.ok "first" := by
  refine ⟨rfl, fun h => ?_⟩
  injection h with h1
  exact (by decide : ¬ "second" = "first") h1

/-- C3 (amended): re-registering a name never raises a duplicate-tool
error: `agents.Agent.register_tool` returns successfully and overwrites
the existing binding in `self.tools`, and `src/agent.py`'s
`Agent.register_tool` likewise overwrites `self.tools[name]` (before its
unrelated `AttributeError`, see C10). -/
theorem C3_register_overwrites
    (tools : List (String × Agents.DecoratedFn)) (g : Agents.DecoratedFn)
    (hdec : g.has_tool_attr = true)
    (_hdup : (dget tools g.name).isSome = true) :
    Agents.register_tool tools g = Except.ok (dictSet tools g.name g)
    ∧ dget (dictSet tools g.name g) g.name = some g
    ∧ (∀ (st : SrcAgent.AgentState) (f : SrcAgent.PyFunc),
        ((SrcAgent.register_tool st f).1).tools = dictSet st.tools f.name f) := by
  refine ⟨?_, dget_dictSet_self _ _ _, fun st f => rfl⟩
  simp [Agents.register_tool, hdec]

/-- Witness for C3's amended theorem at a concrete registry. -/
theorem C3_register_overwrites_witness :
    Agents.register_tool
        [("w", (⟨"w", true, fun _ => Except.ok "first"⟩ : Agents.DecoratedFn))]
        (⟨"w", true, fun _ => Except.ok "second"⟩ : Agents.DecoratedFn)
      = Except.ok (dictSet
          [("w", (⟨"w", true, fun _ => Except.ok "first"⟩ : Agents.DecoratedFn))] "w"
          (⟨"w", true, fun _ => Except.ok "second"⟩ : Agents.DecoratedFn))
    ∧ dget (dictSet
          [("w", (⟨"w", true, fun _ => Except.ok "first"⟩ : Agents.DecoratedFn))] "w"
          (⟨"w", true, fun _ => Except.ok "second"⟩ : Agents.DecoratedFn)) "w"
        = some (⟨"w", true, fun _ => Except.ok "second"⟩ : Agents.DecoratedFn)
    ∧ (∀ (st : SrcAgent.AgentState) (f : SrcAgent.PyFunc),
        ((SrcAgent.register_tool st f).1).tools = dictSet st.tools f.name f) :=
  C3_register_overwrites
    [("w", (⟨"w", true, fun _ => Except.ok "first"⟩ : Agents.DecoratedFn))]
    (⟨"w", true, fun _ => Except.ok "second"⟩ : Agents.DecoratedFn) rfl rfl

/-- C4: in both schema generators — `Tool.from_function` of `src/tool.py`
and `tool_schema` of `tool_helpers.py` — a parameter name appears in the
generated `required` list exactly when that parameter has no default value
(for `tool_schema`, among the parameters it emits, i.e. excluding the
`self` placeholder); and on the P1 instance (required `a`, `b`; optional
`c`) `required` is `["a", "b"]` while `c` appears in `properties` only. -/
theorem C4_required_iff_no_default :
    (∀ (name doc : String) (params : List Param) (n : String),
        n ∈ (SrcTool.from_function name doc params).parameters.required
          ↔ ∃ p ∈ params, Param.name p = n ∧ Param.hasDefault p = false)
    ∧ (∀ (fname d : String) (descs : List (String × String))
          (params : List Param) (n : String),
        n ∈ (Helpers.tool_schema fname d descs params).required
          ↔ ∃ p ∈ params, Param.name p = n ∧ Param.name p ≠ "self"
              ∧ Param.hasDefault p = false)
    ∧ ((SrcTool.from_function "f" ""
          [⟨"a", some PyType.str, false⟩, ⟨"b", some PyType.str, false⟩,
           ⟨"c", some PyType.str, true⟩]).parameters.required = ["a", "b"]
        ∧ (dget (SrcTool.from_function "f" ""
            [⟨"a", some PyType.str, false⟩, ⟨"b", some PyType.str, false⟩,
             ⟨"c", some PyType.str, true⟩]).parameters.properties "c").isSome = true
        ∧ "c" ∉ (SrcTool.from_function "f" ""
            [⟨"a", some PyType.str, false⟩, ⟨"b", some PyType.str, false⟩,
             ⟨"c", some PyType.str, true⟩]).parameters.required)
    ∧ ((Helpers.tool_schema "f" "" []
          [⟨"a", some PyType.str, false⟩, ⟨"b", some PyType.str, false⟩,
           ⟨"c", some PyType.str, true⟩]).required = ["a", "b"]
        ∧ (dget (Helpers.tool_schema "f" "" []
            [⟨"a", some PyType.str, false⟩, ⟨"b", some PyType.str, false⟩,
             ⟨"c", some PyType.str, true⟩]).properties "c").isSome = true
        ∧ "c" ∉ (Helpers.tool_schema "f" "" []
            [⟨"a", some PyType.str, false⟩, ⟨"b", some PyType.str, false⟩,
             ⟨"c", some PyType.str, true⟩]).required) := by
  refine ⟨fun name doc params n => ?_, fun fname d descs params n => ?_,
    by decide, by decide⟩
  · simp only [SrcTool.from_function, List.mem_map, List.mem_filter,
      Bool.not_eq_true']
    constructor
    · rintro ⟨p, ⟨hp, hd⟩, hn⟩
      exact ⟨p, hp, hn, hd⟩
    · rintro ⟨p, hp, hn, hd⟩
      exact ⟨p, ⟨hp, hd⟩, hn⟩
  · simp only [Helpers.tool_schema, List.mem_map, List.mem_filter,
      Bool.not_eq_true', bne_iff_ne, ne_eq]
    constructor
    · rintro ⟨p, ⟨⟨hp, hself⟩, hd⟩, hn⟩
      exact ⟨p, hp, hn, hself, hd⟩
    · rintro ⟨p, hp, hn, hself, hd⟩
      exact ⟨p, ⟨⟨hp, hself⟩, hd⟩, hn⟩

/-- Witness for C4 at the concrete P1 signature: the name `"a"` is in the
generated `required` list of both generators. -/
theorem C4_required_iff_no_default_witness :
    "a" ∈ (SrcTool.from_function "f" ""
        [⟨"a", some PyType.str, false⟩, ⟨"c", some PyType.str, true⟩]).parameters.required
    ∧ "a" ∈ (Helpers.tool_schema "f" "" []
        [⟨"a", some PyType.str, false⟩, ⟨"c", some PyType.str, true⟩]).required := by
  constructor
  · exact (C4_required_iff_no_default.1 "f" ""
      [⟨"a", some PyType.str, false⟩, ⟨"c", some PyType.str, true⟩] "a").2
      ⟨⟨"a", some PyType.str, false⟩, by simp, rfl, rfl⟩
  · exact (C4_required_iff_no_default.2.1 "f" "" []
      [⟨"a", some PyType.str, false⟩, ⟨"c", some PyType.str, true⟩] "a").2
      ⟨⟨"a", some PyType.str, false⟩, by simp, rfl, by decide, rfl⟩

/-- C5 (counterexample): `Tool.from_function` of `src/tool.py` emits
schema type `"string"` for a parameter annotated `int`, where the claim
requires `"integer"`: the file treats every parameter as a string
regardless of its annotation. -/
theorem C5_counterexample :
    dget (SrcTool.from_function "double" "Double a number."
        [⟨"n", some PyType.int, false⟩]).parameters.properties "n"
      = some ⟨"string"⟩
    ∧ dget (SrcTool.from_function "double" "Double a number."
        [⟨"n", some PyType.int, false⟩]).parameters.properties "n"
      ≠ some ⟨"integer"⟩ := by
  exact ⟨rfl, by decide⟩

/-- C5 (amended): `tool_schema` of `tool_helpers.py` maps each emitted
parameter's annotation through the claimed primitive-type table (string
for unannotated and for unlisted types), while `Tool.from_function` of
`src/tool.py` emits type `"string"` for every parameter regardless of
annotation. -/
theorem C5_type_mapping
    (fname d : String) (descs : List (String × String)) (params : List Param)
    (p : Param) (hp : p ∈ params) (hself : p.name ≠ "self")
    (hnodup : (params.map Param.name).Nodup) :
    (dget (Helpers.tool_schema fname d descs params).properties p.name).map
        Helpers.HProp.type
      = some (claimed_json_type p.typeHint)
    ∧ (∀ (nm doc : String) (ps : List Param) (q : Param), q ∈ ps →
        dget (SrcTool.from_function nm doc ps).parameters.properties q.name
          = some ⟨"string"⟩) := by
  constructor
  · have hps : p ∈ params.filter (fun q => q.name != "self") :=
      List.mem_filter.2 ⟨hp, by simpa [bne_iff_ne] using hself⟩
    have hnd : ((params.filter (fun q => q.name != "self")).map Param.name).Nodup :=
      ((List.filter_sublist params).map Param.name).nodup hnodup
    have hinj : ∀ q ∈ params.filter (fun r => r.name != "self"),
        q.name = p.name →
        (fun r => (⟨Helpers.json_type_of r.typeHint,
            Helpers.descGet descs r.name⟩ : Helpers.HProp)) q
          = (fun r => (⟨Helpers.json_type_of r.typeHint,
              Helpers.descGet descs r.name⟩ : Helpers.HProp)) p := by
      intro q hq he
      have hqp : q = p := List.inj_on_of_nodup_map hnd hq hps he
      rw [hqp]
    have := dget_map_of_mem
      (fun r => (⟨Helpers.json_type_of r.typeHint,
          Helpers.descGet descs r.name⟩ : Helpers.HProp))
      (params.filter (fun q => q.name != "self")) p hps hinj
    have h2 : dget (Helpers.tool_schema fname d descs params).properties p.name
        = some ⟨Helpers.json_type_of p.typeHint, Helpers.descGet descs p.name⟩ := by
      simpa [Helpers.tool_schema] using this
    rw [h2, Option.map, json_type_of_eq_claimed]
  · intro nm doc ps q hq
    have hinj : ∀ r ∈ ps, r.name = q.name →
        (fun _ => (⟨"string"⟩ : SrcTool.SchemaProp)) r
          = (fun _ => (⟨"string"⟩ : SrcTool.SchemaProp)) q := by
      intro r _ _; rfl
    exact dget_map_of_mem (fun _ => (⟨"string"⟩ : SrcTool.SchemaProp)) ps q hq hinj

/-- Witness for C5's amended theorem at a concrete two-parameter
signature with an `int` annotation. -/
theorem C5_type_mapping_witness :
    (dget (Helpers.tool_schema "double" "Double a number." []
        [⟨"n", some PyType.int, false⟩, ⟨"units", some PyType.str, true⟩]).properties
        "n").map Helpers.HProp.type
      = some (claimed_json_type (some PyType.int))
    ∧ (∀ (nm doc : String) (ps : List Param) (q : Param), q ∈ ps →
        dget (SrcTool.from_function nm doc ps).parameters.properties q.name
          = some ⟨"string"⟩) :=
  C5_type_mapping "double" "Double a number." []
    [⟨"n", some PyType.int, false⟩, ⟨"units", some PyType.str, true⟩]
    ⟨"n", some PyType.int, false⟩ (by simp) (by decide) (by decide)

/-- C6: after `reset()` (`ConversationMemory.clear` in both
`src/agent.py` and `agents.py`), the history is exactly the subsequence of
system-role turns of the original sequence, in original order — nothing
else survives.  `system_turns_src`/`system_turns_agents` are the
spec-side readings of that sentence. -/
theorem C6_reset_keeps_exactly_system_turns
    (messages : List SrcAgent.Msg) (items : List Agents.AItem)
    (_hs : ∃ m ∈ messages, SrcAgent.Msg.role m = "system")
    (_hi : ∃ it ∈ items, Agents.AItem.role it = some "system") :
    SrcAgent.clear messages = system_turns_src messages
    ∧ Agents.clear items = system_turns_agents items := by
  clear _hs _hi
  constructor
  · induction messages with
    | nil => rfl
    | cons m rest ih =>
      by_cases h : SrcAgent.Msg.role m = "system" <;>
        simp [SrcAgent.clear, system_turns_src, List.filter_cons, h] at ih ⊢ <;>
        exact ih
  · induction items with
    | nil => rfl
    | cons it rest ih =>
      by_cases h : Agents.AItem.role it = some "system" <;>
        simp [Agents.clear, system_turns_agents, List.filter_cons, h] at ih ⊢ <;>
        exact ih

/-- Witness for C6 on a concrete history with a system turn in the
middle. -/
theorem C6_reset_keeps_exactly_system_turns_witness :
    SrcAgent.clear
        [SrcAgent.Msg.user "hi", SrcAgent.Msg.system "be helpful",
         SrcAgent.Msg.assistant ⟨some "hello", []⟩]
      = system_turns_src
        [SrcAgent.Msg.user "hi", SrcAgent.Msg.system "be helpful",
         SrcAgent.Msg.assistant ⟨some "hello", []⟩]
    ∧ Agents.clear
        [Agents.AItem.user "hi", Agents.AItem.system "be helpful"]
      = system_turns_agents
        [Agents.AItem.user "hi", Agents.AItem.system "be helpful"] :=
  C6_reset_keeps_exactly_system_turns
    [SrcAgent.Msg.user "hi", SrcAgent.Msg.system "be helpful",
     SrcAgent.Msg.assistant ⟨some "hello", []⟩]
    [Agents.AItem.user "hi", Agents.AItem.system "be helpful"]
    ⟨SrcAgent.Msg.system "be helpful", by simp, rfl⟩
    ⟨Agents.AItem.system "be helpful", by simp, rfl⟩

/-- C7 (code defect): as wired, `AgentWithMemory._trim_history` never
trims anything: its first step `self._count_tokens()` resolves
`self.memory.get_items()` on the `ConversationMemory` inherited from
`src/agent.py`, which defines no such attribute, so every call raises
`AttributeError` before a single message is removed — the pop-oldest loop
and the `system_messages + other_messages` rebuild are unreachable.  The
claim's trimming contract is never exhibited by this code. -/
theorem C7_trim_history_attribute_error
    (enc : String → Nat) (limit : Nat) (m : AdvMemory.MemoryObj) :
    AdvMemory.trim_history enc limit m
      = Except.error (PyErr.attributeError "get_items") := by
  have h : AdvMemory.memory_has_attr "get_items" = false := by decide
  simp [AdvMemory.trim_history, h]

/-- C1: tool execution never escapes as an exception in either
implementation.  Both `_execute_tool` helpers return a JSON error payload
string for an unparseable argument payload, for an unknown tool name, and
for a registered tool whose function raises on every call (structurally
they return `String`, so they cannot raise); and when the model issues
such a failing call and then answers, `chat()` still returns a text answer
within `max_iterations`, with a tool-result turn carrying the error
payload in the transcript. -/
theorem C1_tool_failure_recovered :
    (∀ (parse : String → Except String KwArgs) (tools : List (String × ToolFn))
        (tc : SrcAgent.ToolCall) (e : String),
        parse tc.arguments = Except.error e →
        isErrorPayload (SrcAgent.execute_tool parse tools tc) = true)
    ∧ (∀ (parse : String → Except String KwArgs) (tools : List (String × ToolFn))
        (tc : SrcAgent.ToolCall),
        dget tools tc.name = none →
        isErrorPayload (SrcAgent.execute_tool parse tools tc) = true)
    ∧ (∀ (parse : String → Except String KwArgs) (tools : List (String × ToolFn))
        (tc : SrcAgent.ToolCall) (f : ToolFn),
        dget tools tc.name = some f →
        (∀ args, ∃ er, f args = Except.error er) →
        isErrorPayload (SrcAgent.execute_tool parse tools tc) = true)
    ∧ (∀ (parse : String → Except String KwArgs) (tools : List (String × ToolFn))
        (nm args : String),
        dget tools nm = none →
        isErrorPayload (Agents.execute_tool parse tools nm args) = true)
    ∧ (∀ (parse : String → Except String KwArgs) (tools : List (String × ToolFn))
        (nm args : String) (f : ToolFn) (e : String),
        dget tools nm = some f →
        parse args = Except.error e →
        isErrorPayload (Agents.execute_tool parse tools nm args) = true)
    ∧ (∀ (parse : String → Except String KwArgs) (tools : List (String × ToolFn))
        (nm args : String) (f : ToolFn),
        dget tools nm = some f →
        (∀ kw, ∃ er, f kw = Except.error er) →
        isErrorPayload (Agents.execute_tool parse tools nm args) = true)
    ∧ (∀ (parse : String → Except String KwArgs)
        (model : List SrcAgent.Msg → Except PyErr SrcAgent.ModelMsg)
        (tools : List (String × ToolFn)) (maxIt : Nat)
        (mem0 : List SrcAgent.Msg) (umsg : String)
        (tc : SrcAgent.ToolCall) (f : ToolFn) (m1 m2 : SrcAgent.ModelMsg),
        2 ≤ maxIt →
        dget tools tc.name = some f →
        (∀ args, ∃ er, f args = Except.error er) →
        model (mem0 ++ [SrcAgent.Msg.user umsg]) = Except.ok m1 →
        SrcAgent.ModelMsg.tool_calls m1 = [tc] →
        model (mem0 ++ [SrcAgent.Msg.user umsg, SrcAgent.Msg.assistant m1,
          SrcAgent.Msg.tool tc.id (SrcAgent.execute_tool parse tools tc)])
          = Except.ok m2 →
        SrcAgent.ModelMsg.tool_calls m2 = [] →
        (SrcAgent.chat parse model tools maxIt mem0 umsg).outcome
            = Outcome.ok ((SrcAgent.ModelMsg.content m2).getD "")
          ∧ ∃ s, SrcAgent.Msg.tool tc.id s
                ∈ (SrcAgent.chat parse model tools maxIt mem0 umsg).memory
              ∧ isErrorPayload s = true)
    ∧ (∀ (aparse : String → Except String KwArgs)
        (amodel : List Agents.AItem → Except PyErr (List Agents.OutItem))
        (atools : List (String × ToolFn)) (maxIt : Nat)
        (amem0 : List Agents.AItem) (umsg cid tname targs : String)
        (f : ToolFn) (out2 : List Agents.OutItem),
        2 ≤ maxIt →
        dget atools tname = some f →
        (∀ kw, ∃ er, f kw = Except.error er) →
        amodel (amem0 ++ [Agents.AItem.user umsg])
          = Except.ok [Agents.OutItem.function_call cid tname targs] →
        amodel (amem0 ++ [Agents.AItem.user umsg,
          Agents.AItem.out (Agents.OutItem.function_call cid tname targs),
          Agents.AItem.function_call_output cid
            (Agents.execute_tool aparse atools tname targs)])
          = Except.ok out2 →
        Agents.has_function_calls out2 = false →
        (Agents.chat aparse amodel atools maxIt amem0 umsg).outcome
            = Outcome.ok (Agents.extract_text_response out2)
          ∧ ∃ s, Agents.AItem.function_call_output cid s
                ∈ (Agents.chat aparse amodel atools maxIt amem0 umsg).memory
              ∧ isErrorPayload s = true) := by
  refine ⟨?_, ?_, ?_, ?_, ?_, ?_, ?_, ?_⟩
  · intro parse tools tc e hp
    unfold SrcAgent.execute_tool
    simp only [hp]
    exact isErrorPayload_json_dumps _
  · intro parse tools tc hn
    unfold SrcAgent.execute_tool
    cases hp : parse tc.arguments with
    | error e => exact isErrorPayload_json_dumps _
    | ok args => simp only [hn]; exact isErrorPayload_json_dumps _
  · intro parse tools tc f hf hraise
    exact src_execute_tool_error_of_raises parse tools tc f hf hraise
  · intro parse tools nm args hn
    unfold Agents.execute_tool
    simp only [hn]
    exact isErrorPayload_json_dumps _
  · intro parse tools nm args f e hf hp
    unfold Agents.execute_tool
    simp only [hf, hp]
    exact isErrorPayload_json_dumps _
  · intro parse tools nm args f hf hraise
    exact agents_execute_tool_error_of_raises parse tools nm args f hf hraise
  · intro parse model tools maxIt mem0 umsg tc f m1 m2
      hmax hf hraise hm1 hcalls hm2 hfinal
    obtain ⟨k, rfl⟩ : ∃ k, maxIt = k + 2 := ⟨maxIt - 2, by omega⟩
    have herr := src_execute_tool_error_of_raises parse tools tc f hf hraise
    have hss : k + 2 = (k + 1) + 1 := rfl
    constructor
    · rw [hss]
      simp [SrcAgent.chat, SrcAgent.run_agent_loop, hm1, hcalls, hm2, hfinal]
    · refine ⟨SrcAgent.execute_tool parse tools tc, ?_, herr⟩
      rw [hss]
      simp [SrcAgent.chat, SrcAgent.run_agent_loop, hm1, hcalls, hm2, hfinal]
  · intro aparse amodel atools maxIt amem0 umsg cid tname targs f out2
      hmax hf hraise hm1 hm2 hfinal
    obtain ⟨k, rfl⟩ : ∃ k, maxIt = k + 2 := ⟨maxIt - 2, by omega⟩
    have herr := agents_execute_tool_error_of_raises aparse atools tname targs f hf hraise
    have hss : k + 2 = (k + 1) + 1 := rfl
    have h1c : Agents.has_function_calls
        [Agents.OutItem.function_call cid tname targs] = true := rfl
    constructor
    · rw [hss]
      simp [Agents.chat, Agents.run_chat_loop, hm1, hm2, hfinal, h1c]
    · refine ⟨Agents.execute_tool aparse atools tname targs, ?_, herr⟩
      rw [hss]
      simp [Agents.chat, Agents.run_chat_loop, hm1, hm2, hfinal, h1c]

/-- Witness for C1: a concrete always-raising tool `boom`, a model that
requests it once and then answers `"done"`. -/
theorem C1_tool_failure_recovered_witness :
    (SrcAgent.chat (fun _ => Except.ok ([] : KwArgs))
        (fun hist => if hist.length = 1
          then Except.ok ⟨none, [⟨"call1", "boom", "x"⟩]⟩
          else Except.ok ⟨some "done", []⟩)
        [("boom", fun _ => Except.error (PyErr.exc "fail"))] 5 [] "hi").outcome
      = Outcome.ok ((SrcAgent.ModelMsg.content ⟨some "done", []⟩).getD "")
    ∧ ∃ s, SrcAgent.Msg.tool "call1" s
          ∈ (SrcAgent.chat (fun _ => Except.ok ([] : KwArgs))
              (fun hist => if hist.length = 1
                then Except.ok ⟨none, [⟨"call1", "boom", "x"⟩]⟩
                else Except.ok ⟨some "done", []⟩)
              [("boom", fun _ => Except.error (PyErr.exc "fail"))] 5 [] "hi").memory
        ∧ isErrorPayload s = true :=
  (C1_tool_failure_recovered.2.2.2.2.2.2.1)
    (fun _ => Except.ok ([] : KwArgs))
    (fun hist => if hist.length = 1
      then Except.ok ⟨none, [⟨"call1", "boom", "x"⟩]⟩
      else Except.ok ⟨some "done", []⟩)
    [("boom", fun _ => Except.error (PyErr.exc "fail"))]
    5 [] "hi" ⟨"call1", "boom", "x"⟩ (fun _ => Except.error (PyErr.exc "fail"))
    ⟨none, [⟨"call1", "boom", "x"⟩]⟩ ⟨some "done", []⟩
    (by omega) rfl (fun _ => ⟨PyErr.exc "fail", rfl⟩) rfl rfl rfl rfl

/-- C2 (counterexample): the two chat implementations, driven by the same
always-requesting model behaviour with `max_iterations = 2`, terminate
after their 2 completion requests but signal exhaustion under different
policies: `src/agent.py` raises the max-iterations `RuntimeError` while
`agents.py` returns the sentinel string — refuting the claim's
single-consistent-policy clause. -/
theorem C2_counterexample :
    (SrcAgent.chat (fun _ => Except.ok ([] : KwArgs))
        (fun _ => Except.ok ⟨none, [⟨"1", "t", "x"⟩]⟩) [] 2 [] "hi").outcome
      = Outcome.raise (PyErr.runtimeError (SrcAgent.exhaust_msg 2))
    ∧ (Agents.chat (fun _ => Except.ok ([] : KwArgs))
        (fun _ => Except.ok [Agents.OutItem.function_call "1" "t" "x"]) [] 2 [] "hi").outcome
      = Outcome.ok Agents.sentinel
    ∧ Outcome.ok Agents.sentinel
      ≠ Outcome.raise (PyErr.runtimeError (SrcAgent.exhaust_msg 2)) :=
  ⟨rfl, rfl, fun h => Outcome.noConfusion h⟩

/-- C2 (amended): under a model that always requests a new tool call, both
implementations terminate after exactly `max_iterations` completion
requests — never more — but the exhaustion policies differ:
`src/agent.py`'s `chat()` raises `RuntimeError` while `agents.py`'s
`chat()` returns the sentinel string; the repository applies no single
policy. -/
theorem C2_exact_requests_mixed_policy
    (parse aparse : String → Except String KwArgs)
    (model : List SrcAgent.Msg → Except PyErr SrcAgent.ModelMsg)
    (amodel : List Agents.AItem → Except PyErr (List Agents.OutItem))
    (tools atools : List (String × ToolFn)) (maxIt : Nat)
    (mem0 : List SrcAgent.Msg) (amem0 : List Agents.AItem) (umsg : String)
    (h1 : ∀ mem, ∃ m, model mem = Except.ok m
        ∧ (SrcAgent.ModelMsg.tool_calls m).isEmpty = false)
    (h2 : ∀ mem, ∃ out, amodel mem = Except.ok out
        ∧ Agents.has_function_calls out = true) :
    (SrcAgent.chat parse model tools maxIt mem0 umsg).requests = maxIt
    ∧ (SrcAgent.chat parse model tools maxIt mem0 umsg).outcome
        = Outcome.raise (PyErr.runtimeError (SrcAgent.exhaust_msg maxIt))
    ∧ (Agents.chat aparse amodel atools maxIt amem0 umsg).requests = maxIt
    ∧ (Agents.chat aparse amodel atools maxIt amem0 umsg).outcome
        = Outcome.ok Agents.sentinel :=
  ⟨(src_loop_always_tool parse model tools maxIt h1 maxIt _).1,
   (src_loop_always_tool parse model tools maxIt h1 maxIt _).2,
   (agents_loop_always_tool aparse amodel atools h2 maxIt _).1,
   (agents_loop_always_tool aparse amodel atools h2 maxIt _).2⟩

/-- Witness for C2's amended theorem at concrete always-requesting
models with `max_iterations = 2`. -/
theorem C2_exact_requests_mixed_policy_witness :
    (SrcAgent.chat (fun _ => Except.ok ([] : KwArgs))
        (fun _ => Except.ok ⟨none, [⟨"1", "t", "x"⟩]⟩) [] 2 [] "hi").requests = 2
    ∧ (SrcAgent.chat (fun _ => Except.ok ([] : KwArgs))
        (fun _ => Except.ok ⟨none, [⟨"1", "t", "x"⟩]⟩) [] 2 [] "hi").outcome
        = Outcome.raise (PyErr.runtimeError (SrcAgent.exhaust_msg 2))
    ∧ (Agents.chat (fun _ => Except.ok ([] : KwArgs))
        (fun _ => Except.ok [Agents.OutItem.function_call "1" "t" "x"])
        [] 2 [] "hi").requests = 2
    ∧ (Agents.chat (fun _ => Except.ok ([] : KwArgs))
        (fun _ => Except.ok [Agents.OutItem.function_call "1" "t" "x"])
        [] 2 [] "hi").outcome = Outcome.ok Agents.sentinel :=
  C2_exact_requests_mixed_policy
    (fun _ => Except.ok ([] : KwArgs)) (fun _ => Except.ok ([] : KwArgs))
    (fun _ => Except.ok ⟨none, [⟨"1", "t", "x"⟩]⟩)
    (fun _ => Except.ok [Agents.OutItem.function_call "1" "t" "x"])
    [] [] 2 [] [] "hi"
    (fun _ => ⟨⟨none, [⟨"1", "t", "x"⟩]⟩, rfl, rfl⟩)
    (fun _ => ⟨[Agents.OutItem.function_call "1" "t" "x"], rfl, rfl⟩)

/-- C9 (counterexample): when the completion request raises, `agents.py`'s
`chat()` catches the exception and returns the string
`"Error calling API: ..."` — an ordinary text answer, not a
distinguishable fatal condition — refuting the claim for this
implementation. -/
theorem C9_counterexample :
    (Agents.chat (fun _ => Except.ok ([] : KwArgs))
        (fun _ => Except.error (PyErr.exc "boom")) [] 3 [] "hi").outcome
      = Outcome.ok "Error calling API: boom" := rfl

/-- C9 (amended): a completion-request failure is never retried by either
loop (exactly one request is issued) and memory already reflects the
appended user turn; `src/agent.py` propagates the exception out of
`chat()` as a fatal condition, but `agents.py` returns the failure as the
ordinary string `"Error calling API: ..."`. -/
theorem C9_no_retry_failure_surfacing
    (parse aparse : String → Except String KwArgs)
    (model : List SrcAgent.Msg → Except PyErr SrcAgent.ModelMsg)
    (amodel : List Agents.AItem → Except PyErr (List Agents.OutItem))
    (tools atools : List (String × ToolFn)) (maxIt : Nat)
    (mem0 : List SrcAgent.Msg) (amem0 : List Agents.AItem)
    (umsg : String) (e : PyErr)
    (hmax : 1 ≤ maxIt)
    (hfail : model (mem0 ++ [SrcAgent.Msg.user umsg]) = Except.error e)
    (hafail : amodel (amem0 ++ [Agents.AItem.user umsg]) = Except.error e) :
    (SrcAgent.chat parse model tools maxIt mem0 umsg).outcome = Outcome.raise e
    ∧ (SrcAgent.chat parse model tools maxIt mem0 umsg).requests = 1
    ∧ (SrcAgent.chat parse model tools maxIt mem0 umsg).memory
        = mem0 ++ [SrcAgent.Msg.user umsg]
    ∧ (Agents.chat aparse amodel atools maxIt amem0 umsg).outcome
        = Outcome.ok ("Error calling API: " ++ pyErrStr e)
    ∧ (Agents.chat aparse amodel atools maxIt amem0 umsg).requests = 1
    ∧ (Agents.chat aparse amodel atools maxIt amem0 umsg).memory
        = amem0 ++ [Agents.AItem.user umsg] := by
  obtain ⟨k, rfl⟩ : ∃ k, maxIt = k + 1 := ⟨maxIt - 1, by omega⟩
  refine ⟨?_, ?_, ?_, ?_, ?_, ?_⟩ <;>
    simp [SrcAgent.chat, SrcAgent.run_agent_loop, Agents.chat,
      Agents.run_chat_loop, hfail, hafail]

/-- Witness for C9's amended theorem at a concrete failing provider. -/
theorem C9_no_retry_failure_surfacing_witness :
    (SrcAgent.chat (fun _ => Except.ok ([] : KwArgs))
        (fun _ => Except.error (PyErr.exc "boom")) [] 3 [] "hi").outcome
      = Outcome.raise (PyErr.exc "boom")
    ∧ (SrcAgent.chat (fun _ => Except.ok ([] : KwArgs))
        (fun _ => Except.error (PyErr.exc "boom")) [] 3 [] "hi").requests = 1
    ∧ (SrcAgent.chat (fun _ => Except.ok ([] : KwArgs))
        (fun _ => Except.error (PyErr.exc "boom")) [] 3 [] "hi").memory
        = [] ++ [SrcAgent.Msg.user "hi"]
    ∧ (Agents.chat (fun _ => Except.ok ([] : KwArgs))
        (fun _ => Except.error (PyErr.exc "boom")) [] 3 [] "hi").outcome
        = Outcome.ok ("Error calling API: " ++ pyErrStr (PyErr.exc "boom"))
    ∧ (Agents.chat (fun _ => Except.ok ([] : KwArgs))
        (fun _ => Except.error (PyErr.exc "boom")) [] 3 [] "hi").requests = 1
    ∧ (Agents.chat (fun _ => Except.ok ([] : KwArgs))
        (fun _ => Except.error (PyErr.exc "boom")) [] 3 [] "hi").memory
        = [] ++ [Agents.AItem.user "hi"] :=
  C9_no_retry_failure_surfacing
    (fun _ => Except.ok ([] : KwArgs)) (fun _ => Except.ok ([] : KwArgs))
    (fun _ => Except.error (PyErr.exc "boom"))
    (fun _ => Except.error (PyErr.exc "boom"))
    [] [] 3 [] [] "hi" (PyErr.exc "boom") (by omega) rfl rfl

end AgentsFromScratch
